import Mathlib

/-!
Verification of `textacy/datasets/reddit_comments.py` (the `RedditComments`
dataset class) against its natural-language specification.

The Python source is shallowly embedded below:
* Python strings are Lean `String`s; Python string comparison (`<`, `<=`,
  lexicographic on code points) is modelled by the executable functions
  `pyLtChars` / `pyLeChars`.
* `while` loops that re-parse strings each iteration are modelled with an
  explicit fuel parameter; running out of fuel (or an uncaught Python
  exception such as a `ValueError` escaping `_generate_filenames`) is `none`.
* JSON field values that the code treats dynamically are modelled by `JVal`;
  a record (one JSON line) is the structure `Line`.
* The generator `_iterate` is modelled as a function producing the list of
  yielded items (or an `Except` error for the raised `IOError`).
-/

namespace RC

/-- Python lexicographic `<` on strings, char by char over code points.
Models the `yrmo < end` and `created_utc < date_range[1]` comparisons. -/
def pyLtChars : List Char → List Char → Bool
  | _, [] => false
  | [], _ :: _ => true
  | a :: as, b :: bs =>
    if a.toNat < b.toNat then true
    else if b.toNat < a.toNat then false
    else pyLtChars as bs

/-- Python lexicographic `<=` on strings. -/
def pyLeChars : List Char → List Char → Bool
  | [], _ => true
  | _ :: _, [] => false
  | a :: as, b :: bs =>
    if a.toNat < b.toNat then true
    else if b.toNat < a.toNat then false
    else pyLeChars as bs

def pyStrLt (a b : String) : Bool := pyLtChars a.data b.data

def pyStrLe (a b : String) : Bool := pyLeChars a.data b.data

/-- The decimal digit character for `d % 10`. -/
def digitChar (d : Nat) : Char :=
  match d % 10 with
  | 0 => '0' | 1 => '1' | 2 => '2' | 3 => '3' | 4 => '4'
  | 5 => '5' | 6 => '6' | 7 => '7' | 8 => '8' | _ => '9'

/-- Two-digit zero-padded decimal rendering (strftime `%m`, `%d`, ...). -/
def fmt2 (n : Nat) : List Char := [digitChar (n / 10), digitChar n]

/-- Four-digit zero-padded decimal rendering (strftime `%Y` for years < 10000). -/
def fmt4 (n : Nat) : List Char :=
  [digitChar (n / 1000), digitChar (n / 100), digitChar (n / 10), digitChar n]

/-- strftime `%Y-%m`. -/
def fmtYm (y m : Nat) : List Char := fmt4 y ++ '-' :: fmt2 m

def fmtYmS (y m : Nat) : String := ⟨fmtYm y m⟩

/-- A canonical zero-padded `YYYY-MM-DD` date string. -/
def fmtYmdS (y m d : Nat) : String := ⟨fmt4 y ++ '-' :: fmt2 m ++ '-' :: fmt2 d⟩

/-- Split a character list at each `'-'` (used to model strptime field
separation for the `%Y-%m[-%d]` formats). -/
def splitDash : List Char → List (List Char)
  | [] => [[]]
  | c :: cs =>
    if c = '-' then [] :: splitDash cs
    else
      match splitDash cs with
      | [] => [[c]]
      | g :: gs => (c :: g) :: gs

def isDigitCh (c : Char) : Bool := 48 ≤ c.toNat && c.toNat ≤ 57

def allDigits (l : List Char) : Bool := l.all isDigitCh

/-- Value of a decimal digit string. -/
def digitsVal (l : List Char) : Nat := l.foldl (fun a c => a * 10 + (c.toNat - 48)) 0

/-- strptime with format `%Y-%m` followed by the `datetime` constructor checks:
exactly four year digits, a 1-2 digit month in 1..12 (CPython's `%m` pattern
excludes `00`), the whole string consumed, and year at least `MINYEAR = 1`. -/
def parseYm (l : List Char) : Option (Nat × Nat) :=
  match splitDash l with
  | [ys, ms] =>
    if allDigits ys ∧ ys.length = 4 ∧ 1 ≤ digitsVal ys ∧
       allDigits ms ∧ 1 ≤ ms.length ∧ ms.length ≤ 2 ∧
       1 ≤ digitsVal ms ∧ digitsVal ms ≤ 12
    then some (digitsVal ys, digitsVal ms) else none
  | _ => none

def isLeap (y : Nat) : Bool := y % 4 = 0 && (y % 100 ≠ 0 || y % 400 = 0)

def daysInMonth (y m : Nat) : Nat :=
  if m = 2 then (if isLeap y then 29 else 28)
  else if m = 4 ∨ m = 6 ∨ m = 9 ∨ m = 11 then 30
  else 31

/-- strptime with format `%Y-%m-%d` plus the `datetime` constructor checks. -/
def parseYmd (l : List Char) : Option (Nat × Nat × Nat) :=
  match splitDash l with
  | [ys, ms, ds] =>
    if allDigits ys ∧ ys.length = 4 ∧ 1 ≤ digitsVal ys ∧
       allDigits ms ∧ 1 ≤ ms.length ∧ ms.length ≤ 2 ∧
       1 ≤ digitsVal ms ∧ digitsVal ms ≤ 12 ∧
       allDigits ds ∧ 1 ≤ ds.length ∧ ds.length ≤ 2 ∧
       1 ≤ digitsVal ds ∧ digitsVal ds ≤ daysInMonth (digitsVal ys) (digitsVal ms)
    then some (digitsVal ys, digitsVal ms, digitsVal ds) else none
  | _ => none

/-- The `try strptime('%Y-%m') except ValueError: strptime('%Y-%m-%d')` of
`_generate_filenames`, keeping only the year and month. `none` models the
uncaught exception when neither format matches. -/
def parseLoopDate (l : List Char) : Option (Nat × Nat) :=
  match parseYm l with
  | some ym => some ym
  | none =>
    match parseYmd l with
    | some (y, m, _) => some (y, m)
    | none => none

/-- The "dead simple iteration to next yrmo" of `_generate_filenames`
(lines 182-186): increment the month, rolling 12 over to the next year. -/
def monthSucc (y m : Nat) : Nat × Nat :=
  if m + 1 > 12 then (y + 1, 1) else (y, m + 1)

/-- `dt.strftime('%Y/RC_%Y-%m.bz2')`. -/
def fnameOf (y m : Nat) : String :=
  ⟨fmt4 y ++ '/' :: 'R' :: 'C' :: '_' :: (fmt4 y ++ '-' :: fmt2 m ++ ['.', 'b', 'z', '2'])⟩

/-- The `while yrmo < end` loop body of `_generate_filenames`, with explicit
fuel. `none` models either fuel exhaustion or an uncaught `ValueError` (an
unparseable `yrmo`, or the `datetime(next_yr, ...)` constructor rejecting a
year above `MAXYEAR = 9999`). -/
def genAux : Nat → List Char → List Char → Option (List String)
  | 0, _, _ => none
  | fuel + 1, yrmo, endc =>
    if pyLtChars yrmo endc then
      match parseLoopDate yrmo with
      | none => none
      | some ym =>
        let nxt := monthSucc ym.1 ym.2
        if 9999 < nxt.1 then none
        else
          match genAux fuel (fmtYm nxt.1 nxt.2) endc with
          | none => none
          | some rest => some (fnameOf ym.1 ym.2 :: rest)
    else some []

end RC

namespace RedditComments

/-- `RedditComments._generate_filenames(date_range)`: the monthly filenames
`YYYY/RC_YYYY-MM.bz2` for the interval `[start, end)`, with fuel made
explicit for the `while` loop. -/
def _generate_filenames (fuel : Nat) (dateRange : String × String) : Option (List String) :=
  RC.genAux fuel dateRange.1.data dateRange.2.data

end RedditComments
namespace RC

/-- The ordered list of `c` consecutive monthly filenames starting at
year `y`, month `m`, rolling month 12 over to the next year's month 1. -/
def monthList : Nat → Nat → Nat → List String
  | y, m, c + 1 => fnameOf y m :: monthList (monthSucc y m).1 (monthSucc y m).2 c
  | _, _, 0 => []

end RC

namespace RC

/-- A JSON field value as the code handles it dynamically. -/
inductive JVal
  | jint (n : Int)
  | jstr (s : String)
  | jnull
  deriving DecidableEq

/-- ASCII whitespace as Python `str.strip()` / `\s` treat it. -/
def isSpaceCh (c : Char) : Bool :=
  c = ' ' || c = '\t' || c = '\n' || c = '\r' || c.toNat = 11 || c.toNat = 12

/-- Python `int(...)` applied to a string: optional surrounding whitespace,
optional sign, then at least one decimal digit (PEP 515 underscores are not
modelled). `none` models the `ValueError`. -/
def pyIntOfStr (s : String) : Option Int :=
  let l := ((s.data.dropWhile isSpaceCh).reverse.dropWhile isSpaceCh).reverse
  match l with
  | '-' :: ds => if ds ≠ [] ∧ allDigits ds then some (-(digitsVal ds : Int)) else none
  | '+' :: ds => if ds ≠ [] ∧ allDigits ds then some ((digitsVal ds : Int)) else none
  | ds => if ds ≠ [] ∧ allDigits ds then some ((digitsVal ds : Int)) else none

/-- Python `int(...)` on a dynamic value; `none` models the `ValueError` /
`TypeError` that `_convert_timestamp` catches. -/
def pyInt : JVal → Option Int
  | .jint n => some n
  | .jstr s => pyIntOfStr s
  | .jnull => none

/-- Proleptic-Gregorian date of day `z0` counted from 1970-01-01 (the
standard civil-from-days algorithm, as performed inside
`datetime.utcfromtimestamp`). -/
def civilFromDays (z0 : Int) : Int × Nat × Nat :=
  let z := z0 + 719468
  let era := z.fdiv 146097
  let doe := (z - era * 146097).toNat
  let yoe := (doe - doe / 1460 + doe / 36524 - doe / 146096) / 365
  let y := (yoe : Int) + era * 400
  let doy := doe - (365 * yoe + yoe / 4 - yoe / 100)
  let mp := (5 * doy + 2) / 153
  let d := doy - (153 * mp + 2) / 5 + 1
  let m := if mp < 10 then mp + 3 else mp - 9
  (if m ≤ 2 then y + 1 else y, m, d)

/-- `datetime.utcfromtimestamp(t).strftime('%Y-%m-%dT%H:%M:%S')`. A year
outside `datetime`'s 1..9999 range raises a `ValueError`, which the only
caller `_convert_timestamp` catches into `''`; that case is folded into the
empty string here. -/
def isoOfTimestamp (t : Int) : String :=
  let days := t.fdiv 86400
  let secs := (t - days * 86400).toNat
  let ymd := civilFromDays days
  if ymd.1 < 1 ∨ 9999 < ymd.1 then ""
  else
    ⟨fmt4 ymd.1.toNat ++ '-' :: fmt2 ymd.2.1 ++ '-' :: fmt2 ymd.2.2 ++
      'T' :: fmt2 (secs / 3600) ++ ':' :: fmt2 (secs % 3600 / 60) ++ ':' :: fmt2 (secs % 60)⟩

/-- One parsed JSON line (a Reddit comment record), restricted to the fields
the code reads or writes. `created_utc` / `retrieved_on` are `none` when the
key is missing (the `line.get(..., '')` default); the code stores the
converted ISO string back into the same slot, modelled as `jstr`. -/
structure Line where
  subreddit : String
  score : Int
  created_utc : Option JVal
  body : String
  retrieved_on : Option JVal
  deriving DecidableEq

/-- An item yielded by `_iterate`: the cleaned body when `text_only`, else
the whole mutated record. -/
inductive Output
  | text (s : String)
  | record (l : Line)
  deriving DecidableEq

/-- The `https?://` part of `REDDIT_LINK_RE` right after `](`. -/
def chompScheme : List Char → Option (List Char)
  | 'h' :: 't' :: 't' :: 'p' :: rest =>
    match rest with
    | 's' :: ':' :: '/' :: '/' :: r => some r
    | ':' :: '/' :: '/' :: r => some r
    | _ => none
  | _ => none

/-- One attempted match of `REDDIT_LINK_RE = \[([^]]+)\]\(https?://[^\)]+\)`
at the head of the input. Both character classes exclude their closing
bracket, so the greedy `+` deterministically takes the maximal run; returns
the captured label and the remainder after the match. -/
def matchLink (l : List Char) : Option (List Char × List Char) :=
  match l with
  | '[' :: rest =>
    let label := rest.takeWhile (fun c => c ≠ ']')
    if label.isEmpty then none
    else
      match rest.drop label.length with
      | ']' :: '(' :: rest2 =>
        match chompScheme rest2 with
        | none => none
        | some rest3 =>
          let url := rest3.takeWhile (fun c => c ≠ ')')
          if url.isEmpty then none
          else
            match rest3.drop url.length with
            | ')' :: rest4 => some (label, rest4)
            | _ => none
      | _ => none
  | _ => none

/-- `REDDIT_LINK_RE.sub(r'\1', content)`: scan left to right, replacing each
non-overlapping match with its label. Fuel keeps the recursion structural;
every step consumes at least one character, so the input length suffices. -/
def subLinksAux : Nat → List Char → List Char
  | 0, l => l
  | _ + 1, [] => []
  | fuel + 1, c :: cs =>
    match matchLink (c :: cs) with
    | some lr => lr.1 ++ subLinksAux fuel lr.2
    | none => c :: subLinksAux fuel cs

def subLinks (l : List Char) : List Char := subLinksAux l.length l

/-- Python `str.replace(old, new)`: left-to-right, non-overlapping (the
patterns used here are never empty). -/
def replaceSubAux (pat rep : List Char) : Nat → List Char → List Char
  | 0, l => l
  | _ + 1, [] => []
  | fuel + 1, c :: cs =>
    if pat.isPrefixOf (c :: cs) then
      rep ++ replaceSubAux pat rep fuel ((c :: cs).drop pat.length)
    else c :: replaceSubAux pat rep fuel cs

def pyReplace (s pat rep : String) : String :=
  ⟨replaceSubAux pat.data rep.data s.data.length s.data⟩

/-- Helper for `normalize_whitespace`: collapse every whitespace run to a
single space (`prev` records whether the previous kept character closed a
run). -/
def collapseWsAux : Bool → List Char → List Char
  | _, [] => []
  | prev, c :: cs =>
    if isSpaceCh c then
      if prev then collapseWsAux true cs else ' ' :: collapseWsAux true cs
    else c :: collapseWsAux false cs

/-- Helper for `normalize_whitespace`: strip leading and trailing whitespace. -/
def stripWs (l : List Char) : List Char :=
  ((l.dropWhile isSpaceCh).reverse.dropWhile isSpaceCh).reverse

/-- Modelled from the spec: `normalize_whitespace` is imported from
`textacy.preprocess`, whose source is not under `src/`; per the spec it
"collapses all whitespace runs (including newlines) to single spaces and
trims leading/trailing whitespace". -/
def normalize_whitespace (s : String) : String :=
  ⟨stripWs (collapseWsAux false s.data)⟩

end RC

namespace RedditComments

def MIN_DATE : String := "2007-10-01"

def MAX_DATE : String := "2015-06-01"

def MIN_SCORE : Int := -2147483647

def MAX_SCORE : Int := 2147483647

/-- Python truthiness of a `None`-or-int value (`None` and `0` are falsy). -/
def truthyInt : Option Int → Bool
  | none => false
  | some n => n ≠ 0

/-- Python truthiness of a `None`-or-str value (`None` and `''` are falsy). -/
def truthyStr : Option String → Bool
  | none => false
  | some s => s ≠ ""

/-- `RedditComments._parse_date_range` after its shape checks (the argument
is already a pair here): a falsy start is replaced by `MIN_DATE`, then a
falsy end by `MAX_DATE`, in the source's sequential order. -/
def _parse_date_range (dr : Option String × Option String) :
    Option String × Option String :=
  let dr1 := if truthyStr dr.1 then dr else (some MIN_DATE, dr.2)
  if truthyStr dr1.2 then dr1 else (dr1.1, some MAX_DATE)

/-- `RedditComments._parse_score_range` after its shape checks: falsy
endpoints are replaced by `MIN_SCORE` / `MAX_SCORE`. -/
def _parse_score_range (sr : Option Int × Option Int) :
    Option Int × Option Int :=
  let sr1 := if truthyInt sr.1 then sr else (some MIN_SCORE, sr.2)
  if truthyInt sr1.2 then sr1 else (sr1.1, some MAX_SCORE)

/-- The parsed date range projected to plain strings; both components are
always `some` after `_parse_date_range` (see
`_parse_date_range_fst_ne_empty`), so the default is never used. -/
def parsedDateRange (dr : Option String × Option String) : String × String :=
  ((_parse_date_range dr).1.getD "", (_parse_date_range dr).2.getD "")

/-- The parsed score range projected to plain integers; both components are
always `some` after `_parse_score_range`. -/
def parsedScoreRange (sr : Option Int × Option Int) : Int × Int :=
  ((_parse_score_range sr).1.getD 0, (_parse_score_range sr).2.getD 0)

/-- The dynamic `subreddit` argument of `texts` / `records`: `None`, a single
string, or a list/tuple/set of strings. -/
inductive SubredditArg
  | noneArg
  | one (s : String)
  | many (l : List String)
  deriving DecidableEq

/-- Lines 264-268 of the source: a falsy `subreddit` (None, `''`, or an empty
collection) means no filtering; a single string becomes a one-element set; a
collection becomes a set. Only membership in the result is ever used, so a
list models the set. -/
def normalizeSubreddit : SubredditArg → Option (List String)
  | .noneArg => none
  | .one s => if s = "" then none else some [s]
  | .many l => if l = [] then none else some l

/-- The normalized filter parameters held by one `_iterate` run. -/
structure Params where
  text_only : Bool
  subreddit : Option (List String)
  score_range : Option (Int × Int)
  date_range : Option (String × String)
  min_len : Nat
  deriving DecidableEq

/-- Lines 264-272: normalize the raw arguments (`if subreddit:`,
`if score_range:`, `if date_range:` — a `None` argument skips the parse,
a present pair is truthy and gets parsed). -/
def mkParams (textOnly : Bool) (subreddit : SubredditArg)
    (dateRange : Option (Option String × Option String))
    (scoreRange : Option (Option Int × Option Int)) (minLen : Nat) : Params :=
  ⟨textOnly, normalizeSubreddit subreddit, scoreRange.map parsedScoreRange,
    dateRange.map parsedDateRange, minLen⟩

/-- `line['subreddit'] not in subreddit` negated: does the line pass the
subreddit filter (vacuously when the filter is inactive)? -/
def subPass (sub : Option (List String)) (line : RC.Line) : Bool :=
  match sub with
  | none => true
  | some ss => ss.contains line.subreddit

/-- `score_range[0] <= line['score'] < score_range[1]` (vacuously true when
the filter is inactive). -/
def scorePass (sr : Option (Int × Int)) (line : RC.Line) : Bool :=
  match sr with
  | none => true
  | some lohi => decide (lohi.1 ≤ line.score ∧ line.score < lohi.2)

/-- `date_range[0] <= line['created_utc'] < date_range[1]` on the converted
timestamp string (vacuously true when the filter is inactive). -/
def datePass (dr : Option (String × String)) (cu : String) : Bool :=
  match dr with
  | none => true
  | some ab => RC.pyStrLe ab.1 cu && RC.pyStrLt cu ab.2

/-- `RedditComments._convert_timestamp`: `int(...)`, `utcfromtimestamp`, ISO
formatting; a caught `ValueError` / `TypeError` yields `''`. -/
def _convert_timestamp (v : RC.JVal) : String :=
  match RC.pyInt v with
  | none => ""
  | some n => RC.isoOfTimestamp n

/-- `RedditComments._clean_content`: strip link markup, decode `&gt;`/`&lt;`,
delete backtick / asterisk / tilde, then normalize whitespace. -/
def _clean_content (content : String) : String :=
  let c1 : String := ⟨RC.subLinks content.data⟩
  let c2 := RC.pyReplace (RC.pyReplace c1 "&gt;" ">") "&lt;" "<"
  let c3 := RC.pyReplace (RC.pyReplace (RC.pyReplace c2 "`" "") "*" "") "~" ""
  RC.normalize_whitespace c3

/-- The per-line body of `_iterate`'s inner loop (lines 291-306): the filter
chain in source order, short-circuiting at the first failure, with the
in-place mutations of `created_utc`, `body` and (for full records)
`retrieved_on` made explicit on the returned line. The second component is
the yielded item, `none` when the line is skipped by `continue`. -/
def processLine (po : Params) (line : RC.Line) : RC.Line × Option RC.Output :=
  if subPass po.subreddit line = false then (line, none)
  else if scorePass po.score_range line = false then (line, none)
  else
    let cu := _convert_timestamp (line.created_utc.getD (RC.JVal.jstr ""))
    let line1 : RC.Line := { line with created_utc := some (RC.JVal.jstr cu) }
    if datePass po.date_range cu = false then (line1, none)
    else
      let line2 : RC.Line := { line1 with body := _clean_content line1.body }
      if po.min_len ≠ 0 ∧ line2.body.length < po.min_len then (line2, none)
      else if po.text_only then (line2, some (RC.Output.text line2.body))
      else
        let line3 : RC.Line := { line2 with
          retrieved_on := some (RC.JVal.jstr
            (_convert_timestamp (line2.retrieved_on.getD (RC.JVal.jstr "")))) }
        (line3, some (RC.Output.record line3))

/-- The inner `for line in read_json_lines(filepath)` loop, carrying the
running count `n`: after each yield the count is incremented and
`if n == limit: break` is checked. Returns the updated count and the items
yielded from this file. -/
def iterLines (po : Params) (limit : Int) : Nat → List RC.Line → Nat × List RC.Output
  | n, [] => (n, [])
  | n, line :: rest =>
    match (processLine po line).2 with
    | none => iterLines po limit n rest
    | some out =>
      if ((n + 1 : Nat) : Int) = limit then (n + 1, [out])
      else
        let r := iterLines po limit (n + 1) rest
        (r.1, out :: r.2)

/-- The outer `for filepath in filepaths` loop with its trailing
`if n == limit: break`. -/
def iterFiles (po : Params) (limit : Int) : Nat → List (List RC.Line) → List RC.Output
  | _, [] => []
  | n, f :: fs =>
    let r := iterLines po limit n f
    if (r.1 : Int) = limit then r.2
    else r.2 ++ iterFiles po limit r.1 fs

/-- `os.path.join(self.data_dir, fname)`. -/
def joinPath (dataDir fname : String) : String := dataDir ++ "/" ++ fname

/-- Lines 271-280 of `_iterate`: choose the files to read. `files` models
`self.filenames` paired with each file's parsed lines, already sorted as the
`filenames` property sorts them. `none` propagates a failure inside
`_generate_filenames`. -/
def selectFiles (fuel : Nat) (dateRange : Option (Option String × Option String))
    (dataDir : String) (files : List (String × List RC.Line)) :
    Option (List (String × List RC.Line)) :=
  match dateRange with
  | none => some files
  | some dr =>
    match _generate_filenames fuel (parsedDateRange dr) with
    | none => none
    | some fnames =>
      let needed := fnames.map (joinPath dataDir)
      some (files.filter (fun f => needed.contains f.1))

/-- Python `repr` of the (possibly `None`) parsed date-range tuple, as
interpolated into the `IOError` message by `str.format`. -/
def reprDateRange : Option (String × String) → String
  | none => "None"
  | some ab => "('" ++ ab.1 ++ "', '" ++ ab.2 ++ "')"

/-- The message of the `IOError` raised on line 283. -/
def noFilesMsg (dataDir : String) (dr : Option (String × String)) : String :=
  "No files found at " ++ dataDir ++ " corresponding to date range " ++ reprDateRange dr

/-- `RedditComments._iterate`: argument normalization, file selection, the
not-found error, and the two nested yield loops, returning every yielded
item in order (`Except.error` models the raised `IOError`; the outer `none`
a failure escaping `_generate_filenames`). -/
def _iterate (fuel : Nat) (textOnly : Bool) (subreddit : SubredditArg)
    (dateRange : Option (Option String × Option String))
    (scoreRange : Option (Option Int × Option Int))
    (minLen : Nat) (limit : Int) (dataDir : String)
    (files : List (String × List RC.Line)) : Option (Except String (List RC.Output)) :=
  match selectFiles fuel dateRange dataDir files with
  | none => none
  | some fps =>
    if fps.isEmpty then
      some (Except.error (noFilesMsg dataDir (dateRange.map parsedDateRange)))
    else
      some (Except.ok
        (iterFiles (mkParams textOnly subreddit dateRange scoreRange minLen)
          limit 0 (fps.map Prod.snd)))

/-- `RedditComments.texts`: `_iterate` with `text_only=True`, yielding each
item unchanged. -/
def texts (fuel : Nat) (subreddit : SubredditArg)
    (dateRange : Option (Option String × Option String))
    (scoreRange : Option (Option Int × Option Int))
    (minLen : Nat) (limit : Int) (dataDir : String)
    (files : List (String × List RC.Line)) : Option (Except String (List RC.Output)) :=
  _iterate fuel true subreddit dateRange scoreRange minLen limit dataDir files

/-- `RedditComments.records`: `_iterate` with `text_only=False`, yielding
each item unchanged. -/
def records (fuel : Nat) (subreddit : SubredditArg)
    (dateRange : Option (Option String × Option String))
    (scoreRange : Option (Option Int × Option Int))
    (minLen : Nat) (limit : Int) (dataDir : String)
    (files : List (String × List RC.Line)) : Option (Except String (List RC.Output)) :=
  _iterate fuel false subreddit dateRange scoreRange minLen limit dataDir files

/-- Every item passing the filters, in file order: the unbounded yield
sequence against which the `limit` behavior is measured. -/
def allMatches (po : Params) : List (List RC.Line) → List RC.Output
  | [] => []
  | f :: fs => f.filterMap (fun l => (processLine po l).2) ++ allMatches po fs

end RedditComments

namespace RedditComments

/-- A sample record passing every (inactive) filter. -/
def sampleLine : RC.Line :=
  ⟨"politics", 5, some (RC.JVal.jstr "x"), "hello world", none⟩

/-- A single on-disk file containing `sampleLine`. -/
def sampleFiles : List (String × List RC.Line) := [("f1", [sampleLine])]
/-- A single on-disk file that no 2010 date range can select. -/
def offRangeFiles : List (String × List RC.Line) := [("d/2007/RC_2007-10.bz2", [])]

end RedditComments

namespace RC

theorem digitChar_toNat (d : Nat) : (digitChar d).toNat = 48 + d % 10 := by
  unfold digitChar
  have h : d % 10 < 10 := Nat.mod_lt _ (by omega)
  set k := d % 10 with hk
  interval_cases k <;> rfl

theorem digitChar_ne_dash (d : Nat) : ¬ digitChar d = '-' := by
  intro h
  have h2 := congrArg Char.toNat h
  rw [digitChar_toNat] at h2
  have h3 : ('-').toNat = 45 := rfl
  omega

theorem pyLt_digit_cons (a b : Nat) (l1 l2 : List Char) :
    pyLtChars (digitChar a :: l1) (digitChar b :: l2)
      = if a % 10 < b % 10 then true
        else if b % 10 < a % 10 then false
        else pyLtChars l1 l2 := by
  simp only [pyLtChars, digitChar_toNat]
  split_ifs <;> first | rfl | omega

theorem pyLt_dash_cons (l1 l2 : List Char) :
    pyLtChars ('-' :: l1) ('-' :: l2) = pyLtChars l1 l2 := by
  simp only [pyLtChars]
  have hd : ('-').toNat = 45 := rfl
  rw [hd]
  simp

theorem pyLt_nil_cons (c : Char) (l : List Char) :
    pyLtChars [] (c :: l) = true := rfl

theorem pyLt_nil_nil : pyLtChars [] [] = false := rfl

theorem digitChar_congr (x y : Nat) (h : x % 10 = y % 10) : digitChar x = digitChar y := by
  unfold digitChar
  rw [h]

/-- A two-digit block compares like its numeric value. -/
theorem pyLt_fmt2_append (a b : Nat) (ha : a < 100) (hb : b < 100) (l1 l2 : List Char) :
    pyLtChars (fmt2 a ++ l1) (fmt2 b ++ l2)
      = if a < b then true else if b < a then false else pyLtChars l1 l2 := by
  simp only [fmt2, List.cons_append, pyLt_digit_cons]
  split_ifs <;> first | rfl | omega

theorem fmt4_eq_fmt2_fmt2 (a : Nat) : fmt4 a = fmt2 (a / 100) ++ fmt2 (a % 100) := by
  simp only [fmt4, fmt2, List.cons_append, List.nil_append, List.cons.injEq, and_true,
    true_and]
  exact ⟨digitChar_congr _ _ (by omega), digitChar_congr _ _ (by omega),
    digitChar_congr _ _ (by omega)⟩

/-- A four-digit block compares like its numeric value. -/
theorem pyLt_fmt4_append (a b : Nat) (ha : a < 10000) (hb : b < 10000) (l1 l2 : List Char) :
    pyLtChars (fmt4 a ++ l1) (fmt4 b ++ l2)
      = if a < b then true else if b < a then false else pyLtChars l1 l2 := by
  rw [fmt4_eq_fmt2_fmt2 a, fmt4_eq_fmt2_fmt2 b, List.append_assoc, List.append_assoc,
    pyLt_fmt2_append _ _ (by omega) (by omega),
    pyLt_fmt2_append _ _ (by omega) (by omega)]
  split_ifs <;> first | rfl | omega

/-- Lexicographic comparison of two canonical `YYYY-MM` strings agrees with
comparison of the linear month indices. -/
theorem pyLt_fmtYm_fmtYm (y1 m1 y2 m2 : Nat)
    (hy1 : y1 < 10000) (hy2 : y2 < 10000)
    (hm1 : 1 ≤ m1) (hm1' : m1 ≤ 12) (hm2 : 1 ≤ m2) (hm2' : m2 ≤ 12) :
    pyLtChars (fmtYm y1 m1) (fmtYm y2 m2) = decide (12 * y1 + m1 < 12 * y2 + m2) := by
  have e1 : fmt2 m1 = fmt2 m1 ++ [] := by simp
  have e2 : fmt2 m2 = fmt2 m2 ++ [] := by simp
  rw [fmtYm, fmtYm, pyLt_fmt4_append _ _ hy1 hy2, pyLt_dash_cons, e1, e2,
    pyLt_fmt2_append _ _ (by omega) (by omega), pyLt_nil_nil]
  split_ifs <;>
    first
      | (symm; rw [decide_eq_true_eq]; omega)
      | (symm; rw [decide_eq_false_iff_not]; omega)

/-- Comparing a canonical `YYYY-MM` string against a canonical `YYYY-MM-DD`
string: since the month form is a strict prefix of the day form for the same
month, the result is month-index `≤`, regardless of the day digits. -/
theorem pyLt_fmtYm_fmtYmd (y1 m1 y2 m2 d2 : Nat)
    (hy1 : y1 < 10000) (hy2 : y2 < 10000)
    (hm1 : 1 ≤ m1) (hm1' : m1 ≤ 12) (hm2 : 1 ≤ m2) (hm2' : m2 ≤ 12) :
    pyLtChars (fmtYm y1 m1) (fmt4 y2 ++ '-' :: fmt2 m2 ++ '-' :: fmt2 d2)
      = decide (12 * y1 + m1 ≤ 12 * y2 + m2) := by
  have e1 : fmt2 m1 = fmt2 m1 ++ [] := by simp
  rw [fmtYm, List.append_assoc, List.cons_append, pyLt_fmt4_append _ _ hy1 hy2,
    pyLt_dash_cons, e1, pyLt_fmt2_append _ _ (by omega) (by omega), pyLt_nil_cons]
  split_ifs <;>
    first
      | (symm; rw [decide_eq_true_eq]; omega)
      | (symm; rw [decide_eq_false_iff_not]; omega)

theorem splitDash_fmtYm (y m : Nat) : splitDash (fmtYm y m) = [fmt4 y, fmt2 m] := by
  simp only [fmtYm, fmt4, fmt2, List.cons_append, List.nil_append]
  simp [splitDash, digitChar_ne_dash]

theorem allDigits_fmt4 (y : Nat) : allDigits (fmt4 y) = true := by
  simp [allDigits, fmt4, isDigitCh, digitChar_toNat]
  omega

theorem allDigits_fmt2 (m : Nat) : allDigits (fmt2 m) = true := by
  simp [allDigits, fmt2, isDigitCh, digitChar_toNat]
  omega

theorem digitsVal_fmt4 (y : Nat) (hy : y < 10000) : digitsVal (fmt4 y) = y := by
  simp [digitsVal, fmt4, digitChar_toNat]
  omega

theorem digitsVal_fmt2 (m : Nat) (hm : m < 100) : digitsVal (fmt2 m) = m := by
  simp [digitsVal, fmt2, digitChar_toNat]
  omega

theorem fmt4_length (y : Nat) : (fmt4 y).length = 4 := rfl

theorem fmt2_length (m : Nat) : (fmt2 m).length = 2 := rfl

theorem parseYm_fmtYm (y m : Nat)
    (hy1 : 1 ≤ y) (hy : y < 10000) (hm1 : 1 ≤ m) (hm : m ≤ 12) :
    parseYm (fmtYm y m) = some (y, m) := by
  have h4 := digitsVal_fmt4 y hy
  have h2 := digitsVal_fmt2 m (by omega)
  simp [parseYm, splitDash_fmtYm, allDigits_fmt4, allDigits_fmt2, h4, h2, hy1, hm1, hm,
    fmt4_length, fmt2_length]

/-- Round trip: a canonical `YYYY-MM` string always parses back under the
`%Y-%m` format tried first in `_generate_filenames`. -/
theorem parseLoopDate_fmtYm (y m : Nat)
    (hy1 : 1 ≤ y) (hy : y < 10000) (hm1 : 1 ≤ m) (hm : m ≤ 12) :
    parseLoopDate (fmtYm y m) = some (y, m) := by
  simp [parseLoopDate, parseYm_fmtYm y m hy1 hy hm1 hm]

/-- Loop invariant of the `while yrmo < end` loop: if comparing a canonical
month string against the end string amounts to `month index ≤ B`, the loop
emits exactly the months from the start index through `B`. -/
theorem genAux_months (endc : List Char) (B : Nat) (hB : B < 12 * 9999 + 12)
    (hcmp : ∀ y m, 1 ≤ y → y < 10000 → 1 ≤ m → m ≤ 12 →
      pyLtChars (fmtYm y m) endc = decide (12 * y + m ≤ B)) :
    ∀ c y1 m1 fuel, 1 ≤ y1 → y1 < 10000 → 1 ≤ m1 → m1 ≤ 12 →
      c = (B + 1) - (12 * y1 + m1) → c + 1 ≤ fuel →
      genAux fuel (fmtYm y1 m1) endc = some (monthList y1 m1 c) := by
  intro c
  induction c with
  | zero =>
    intro y1 m1 fuel hy1 hy1' hm1 hm1' hc hfuel
    obtain ⟨f, rfl⟩ : ∃ f, fuel = f + 1 := ⟨fuel - 1, by omega⟩
    rw [genAux, hcmp y1 m1 hy1 hy1' hm1 hm1',
      if_neg (by simp only [decide_eq_true_eq]; omega)]
    rfl
  | succ c ih =>
    intro y1 m1 fuel hy1 hy1' hm1 hm1' hc hfuel
    obtain ⟨f, rfl⟩ : ∃ f, fuel = f + 1 := ⟨fuel - 1, by omega⟩
    rw [genAux, hcmp y1 m1 hy1 hy1' hm1 hm1',
      if_pos (by simp only [decide_eq_true_eq]; omega),
      parseLoopDate_fmtYm y1 m1 hy1 hy1' hm1 hm1']
    rcases Nat.lt_or_ge m1 12 with h12 | h12
    · have hms : monthSucc y1 m1 = (y1, m1 + 1) := by
        unfold monthSucc
        rw [if_neg (by omega)]
      simp only [hms]
      rw [if_neg (by omega : ¬ 9999 < y1),
        ih y1 (m1 + 1) f hy1 hy1' (by omega) (by omega) (by omega) (by omega)]
      simp [monthList, hms]
    · have hm12 : m1 = 12 := by omega
      have hms : monthSucc y1 m1 = (y1 + 1, 1) := by
        unfold monthSucc
        rw [if_pos (by omega)]
      simp only [hms]
      rw [if_neg (by omega : ¬ 9999 < y1 + 1),
        ih (y1 + 1) 1 f (by omega) (by omega) (by omega) (by omega) (by omega) (by omega)]
      simp [monthList, hms]

end RC

namespace RedditComments

/-- C2: for every date range given as canonical `YYYY-MM` strings with
`start < end` at month granularity, `_generate_filenames` returns exactly the
ordered sequence of monthly filenames `YYYY/RC_YYYY-MM.bz2` for the months in
`[start, end)`, rolling month 12 over to the next year's month 1
(`monthList` enumerates exactly those months, `c` counts them). -/
theorem _generate_filenames_ym_range (fuel y1 m1 y2 m2 c : Nat)
    (hy1 : 1 ≤ y1) (hy1' : y1 < 10000) (hm1 : 1 ≤ m1) (hm1' : m1 ≤ 12)
    (hy2 : 1 ≤ y2) (hy2' : y2 < 10000) (hm2 : 1 ≤ m2) (hm2' : m2 ≤ 12)
    (hlt : 12 * y1 + m1 < 12 * y2 + m2)
    (hc : c = (12 * y2 + m2) - (12 * y1 + m1)) (hfuel : c + 1 ≤ fuel) :
    _generate_filenames fuel (RC.fmtYmS y1 m1, RC.fmtYmS y2 m2)
      = some (RC.monthList y1 m1 c) := by
  have hcmp : ∀ y m, 1 ≤ y → y < 10000 → 1 ≤ m → m ≤ 12 →
      RC.pyLtChars (RC.fmtYm y m) (RC.fmtYm y2 m2)
        = decide (12 * y + m ≤ (12 * y2 + m2) - 1) := by
    intro y m hy hy' hm hm'
    have hiff : (12 * y + m < 12 * y2 + m2) ↔ (12 * y + m ≤ (12 * y2 + m2) - 1) := by
      omega
    rw [RC.pyLt_fmtYm_fmtYm y m y2 m2 hy' hy2' hm hm' hm2 hm2',
      decide_eq_decide.mpr hiff]
  exact RC.genAux_months (RC.fmtYm y2 m2) ((12 * y2 + m2) - 1) (by omega) hcmp
    c y1 m1 fuel hy1 hy1' hm1 hm1' (by omega) hfuel

/-- C2 witness: the spec's own example, `("2007-11", "2008-02")`. -/
theorem _generate_filenames_ym_range_witness :
    _generate_filenames 4 ("2007-11", "2008-02")
      = some ["2007/RC_2007-11.bz2", "2007/RC_2007-12.bz2", "2008/RC_2008-01.bz2"] := by
  have h := _generate_filenames_ym_range 4 2007 11 2008 2 3 (by decide) (by decide)
    (by decide) (by decide) (by decide) (by decide) (by decide) (by decide)
    (by decide) (by decide) (by decide)
  have e1 : RC.fmtYmS 2007 11 = "2007-11" := by decide
  have e2 : RC.fmtYmS 2008 2 = "2008-02" := by decide
  have e3 : RC.monthList 2007 11 3
      = ["2007/RC_2007-11.bz2", "2007/RC_2007-12.bz2", "2008/RC_2008-01.bz2"] := by decide
  rw [e1, e2, e3] at h
  exact h

/-- C3 counterexample: the claim says a month is included iff it is strictly
below the end's containing month; but with end `"2015-01-15"` the month
2015-01 is included even though `2015-01 < 2015-01` is false (the raw string
comparison `"2015-01" < "2015-01-15"` is true, so the end is not normalized
to its containing month). -/
theorem _generate_filenames_ymd_end_cex :
    _generate_filenames 2 ("2015-01", "2015-01-15") = some ["2015/RC_2015-01.bz2"]
      ∧ ¬ (12 * 2015 + 1 < 12 * 2015 + 1) := by
  exact ⟨by decide, by omega⟩

/-- C3 amended: `_generate_filenames` accepts a `YYYY-MM-DD` end value, but
does not normalize it to its containing month: because the loop compares the
raw strings and `"YYYY-MM" < "YYYY-MM-DD"` holds for the same month, a month
`m` is included iff `m` is less than OR EQUAL TO the end's containing month
(the end month itself is always included, whatever its day digits); the
extreme end month 9999-12 is excluded since stepping past it raises. -/
theorem _generate_filenames_ymd_end_range (fuel y1 m1 y2 m2 d2 c : Nat)
    (hy1 : 1 ≤ y1) (hy1' : y1 < 10000) (hm1 : 1 ≤ m1) (hm1' : m1 ≤ 12)
    (hy2' : y2 < 10000) (hm2 : 1 ≤ m2) (hm2' : m2 ≤ 12)
    (hmax : 12 * y2 + m2 < 12 * 9999 + 12)
    (hc : c = (12 * y2 + m2 + 1) - (12 * y1 + m1)) (hfuel : c + 1 ≤ fuel) :
    _generate_filenames fuel (RC.fmtYmS y1 m1, RC.fmtYmdS y2 m2 d2)
      = some (RC.monthList y1 m1 c) := by
  have hcmp : ∀ y m, 1 ≤ y → y < 10000 → 1 ≤ m → m ≤ 12 →
      RC.pyLtChars (RC.fmtYm y m)
          (RC.fmt4 y2 ++ '-' :: RC.fmt2 m2 ++ '-' :: RC.fmt2 d2)
        = decide (12 * y + m ≤ 12 * y2 + m2) := by
    intro y m hy hy' hm hm'
    exact RC.pyLt_fmtYm_fmtYmd y m y2 m2 d2 hy' hy2' hm hm' hm2 hm2'
  exact RC.genAux_months _ (12 * y2 + m2) (by omega) hcmp
    c y1 m1 fuel hy1 hy1' hm1 hm1' (by omega) hfuel

/-- C3 amended witness: end `"2015-01-15"` yields exactly the one month
2015-01 when starting from `"2015-01"`. -/
theorem _generate_filenames_ymd_end_range_witness :
    _generate_filenames 2 ("2015-01", "2015-01-15") = some (RC.monthList 2015 1 1) := by
  have h := _generate_filenames_ymd_end_range 2 2015 1 2015 1 15 1 (by decide) (by decide)
    (by decide) (by decide) (by decide) (by decide) (by decide) (by decide)
    (by decide) (by decide)
  have e1 : RC.fmtYmS 2015 1 = "2015-01" := by decide
  have e2 : RC.fmtYmdS 2015 1 15 = "2015-01-15" := by decide
  rw [e1, e2] at h
  exact h

end RedditComments

namespace RedditComments

/-- With `limit = -1`, the inner loop never breaks: it yields every match of
the file and adds their number to the running count. -/
theorem iterLines_neg (po : Params) (f : List RC.Line) : ∀ n : Nat,
    iterLines po (-1) n f
      = (n + (f.filterMap (fun l => (processLine po l).2)).length,
         f.filterMap (fun l => (processLine po l).2)) := by
  induction f with
  | nil => intro n; simp [iterLines]
  | cons line rest ih =>
    intro n
    rw [iterLines]
    cases h : (processLine po line).2 with
    | none => simp [h, ih n, List.filterMap_cons]
    | some out =>
      have hne : ¬ ((n + 1 : Nat) : Int) = -1 := by omega
      simp only [h, hne, if_false, ih (n + 1), List.filterMap_cons]
      simp
      omega

/-- With `limit = -1`, the outer loop never breaks either: `_iterate` yields
every match of every file. -/
theorem iterFiles_neg (po : Params) : ∀ (files : List (List RC.Line)) (n : Nat),
    iterFiles po (-1) n files = allMatches po files := by
  intro files
  induction files with
  | nil => intro n; simp [iterFiles, allMatches]
  | cons f fs ih =>
    intro n
    rw [iterFiles, iterLines_neg po f n]
    have hne : ¬ ((n + (f.filterMap (fun l => (processLine po l).2)).length : Nat) : Int)
        = -1 := by omega
    simp only [hne, if_false, ih, allMatches]

/-- With a positive `limit = L` and current count `n < L`, the inner loop
yields the next `L - n` matches of the file (or all of them if fewer) and
the count advances accordingly, capped at `L`. -/
theorem iterLines_take (po : Params) (L : Nat) : ∀ (f : List RC.Line) (n : Nat), n < L →
    iterLines po (L : Int) n f
      = (min L (n + (f.filterMap (fun l => (processLine po l).2)).length),
         (f.filterMap (fun l => (processLine po l).2)).take (L - n)) := by
  intro f
  induction f with
  | nil =>
    intro n hn
    simp [iterLines]
    omega
  | cons line rest ih =>
    intro n hn
    rw [iterLines]
    cases h : (processLine po line).2 with
    | none => simp [h, ih n hn, List.filterMap_cons]
    | some out =>
      rcases Nat.lt_or_ge (n + 1) L with hlt | hge
      · have hne : ¬ ((n + 1 : Nat) : Int) = (L : Int) := by omega
        have htk : L - n = (L - (n + 1)) + 1 := by omega
        simp only [h, hne, if_false, ih (n + 1) hlt, List.filterMap_cons, htk,
          List.take_succ_cons]
        simp
        omega
      · have heq : n + 1 = L := by omega
        have he : ((n + 1 : Nat) : Int) = (L : Int) := by omega
        have htk : L - n = 1 := by omega
        simp only [h, he, if_true, List.filterMap_cons, htk]
        simp
        omega

/-- With a positive `limit = L` and current count `n < L`, the two nested
loops together yield exactly the next `L - n` matches across the files. -/
theorem iterFiles_take (po : Params) (L : Nat) :
    ∀ (files : List (List RC.Line)) (n : Nat), n < L →
    iterFiles po (L : Int) n files = (allMatches po files).take (L - n) := by
  intro files
  induction files with
  | nil => intro n hn; simp [iterFiles, allMatches]
  | cons f fs ih =>
    intro n hn
    rw [iterFiles, iterLines_take po L f n hn]
    rw [allMatches, List.take_append_eq_append_take]
    set M := f.filterMap (fun l => (processLine po l).2) with hM
    rcases Nat.lt_or_ge (n + M.length) L with hlt | hge
    · have hne : ¬ ((min L (n + M.length) : Nat) : Int) = (L : Int) := by
        simp only [Int.natCast_inj]
        omega
      have hmin : min L (n + M.length) = n + M.length := by omega
      have harith : L - (n + M.length) = L - n - M.length := by omega
      rw [if_neg hne, hmin, ih _ hlt, harith]
    · have he : ((min L (n + M.length) : Nat) : Int) = (L : Int) := by
        simp only [Int.natCast_inj]
        omega
      rw [if_pos he]
      have hz : L - n - M.length = 0 := by omega
      rw [hz]
      simp

end RedditComments

namespace RedditComments
/-- C1 amended: for every call to `_iterate` (via `texts` or `records`),
`limit = -1` yields all records passing the filters, and every POSITIVE
`limit` yields exactly the first `limit` of them (at most `limit` in total
across all files, stopping at the limit). `limit = 0` is NOT a zero-yield
cap: the `n == limit` check runs only after a yield, so it can never fire
(see the counterexample); with `limit = 0` iteration stops early only at a
file boundary reached with zero yields so far. -/
theorem _iterate_limit_semantics (fuel : Nat) (textOnly : Bool)
    (subreddit : SubredditArg)
    (dateRange : Option (Option String × Option String))
    (scoreRange : Option (Option Int × Option Int))
    (minLen : Nat) (dataDir : String)
    (files fps : List (String × List RC.Line))
    (hsel : selectFiles fuel dateRange dataDir files = some fps)
    (hne : fps ≠ []) :
    _iterate fuel textOnly subreddit dateRange scoreRange minLen (-1) dataDir files
      = some (Except.ok (allMatches
          (mkParams textOnly subreddit dateRange scoreRange minLen)
          (fps.map Prod.snd)))
    ∧ ∀ L : Nat, 0 < L →
      _iterate fuel textOnly subreddit dateRange scoreRange minLen (L : Int) dataDir files
        = some (Except.ok ((allMatches
            (mkParams textOnly subreddit dateRange scoreRange minLen)
            (fps.map Prod.snd)).take L)) := by
  obtain ⟨f0, fs0, rfl⟩ : ∃ f0 fs0, fps = f0 :: fs0 := by
    cases fps with
    | nil => exact absurd rfl hne
    | cons a b => exact ⟨a, b, rfl⟩
  have hinner : ∀ lim : Int,
      _iterate fuel textOnly subreddit dateRange scoreRange minLen lim dataDir files
        = some (Except.ok
            (iterFiles (mkParams textOnly subreddit dateRange scoreRange minLen)
              lim 0 ((f0 :: fs0).map Prod.snd))) := by
    intro lim
    rw [_iterate, hsel]
    simp [List.isEmpty]
  constructor
  · rw [hinner (-1), iterFiles_neg]
  · intro L hL
    rw [hinner (L : Int), iterFiles_take _ L _ 0 hL]
    simp

/-- C1 witness: one file, one matching record, `limit = -1` yields it. -/
theorem _iterate_limit_semantics_witness :
    _iterate 1 true SubredditArg.noneArg none none 0 (-1) "d" sampleFiles
      = some (Except.ok (allMatches (mkParams true SubredditArg.noneArg none none 0)
          (sampleFiles.map Prod.snd))) :=
  (_iterate_limit_semantics 1 true SubredditArg.noneArg none none 0 "d"
    sampleFiles sampleFiles rfl (by decide)).1

/-- C1 counterexample: with `limit = 0` the claim predicts zero yields, but
the `n == limit` check runs only after the count has been incremented past
zero, so the single matching record IS yielded. -/
theorem _iterate_limit_zero_cex :
    _iterate 1 true SubredditArg.noneArg none none 0 0 "d" sampleFiles
      = some (Except.ok [RC.Output.text "hello world"])
    ∧ [RC.Output.text "hello world"].length ≠ 0 := by
  constructor
  · rfl
  · decide

end RedditComments

namespace RedditComments

/-- Characterization of `_parse_score_range` on pairs: each side is kept if
truthy, else replaced by the corresponding extreme constant. -/
theorem parse_score_range_eq (a b : Option Int) :
    _parse_score_range (a, b)
      = ((if truthyInt a then a else some MIN_SCORE),
         (if truthyInt b then b else some MAX_SCORE)) := by
  simp only [_parse_score_range]
  split_ifs <;> simp_all

/-- Characterization of `_parse_date_range` on pairs. -/
theorem parse_date_range_eq (a b : Option String) :
    _parse_date_range (a, b)
      = ((if truthyStr a then a else some MIN_DATE),
         (if truthyStr b then b else some MAX_DATE)) := by
  simp only [_parse_date_range]
  split_ifs <;> simp_all

theorem truthyStr_some (a : Option String) (h : truthyStr a = true) :
    ∃ s, a = some s ∧ s ≠ "" := by
  cases a with
  | none => simp [truthyStr] at h
  | some s =>
    refine ⟨s, rfl, ?_⟩
    simpa [truthyStr] using h

/-- After parsing, the start of an active date range is never the empty
string (a falsy start was replaced by `MIN_DATE`). -/
theorem parsedDateRange_fst_ne_empty (dr : Option String × Option String) :
    (parsedDateRange dr).1 ≠ "" := by
  obtain ⟨a, b⟩ := dr
  unfold parsedDateRange
  rw [parse_date_range_eq]
  by_cases h : truthyStr a = true
  · obtain ⟨s, rfl, hs⟩ := truthyStr_some a h
    simpa [h] using hs
  · simp only [Bool.not_eq_true] at h
    simp [h, MIN_DATE]

/-- C4 counterexample: the claim says a falsy first element is replaced by
the minimum representable 32-bit signed integer, -2147483648; the code's
`MIN_SCORE` is -2147483647, as its own example shows. -/
theorem _parse_score_range_min_cex :
    _parse_score_range (none, some 100) = (some (-2147483647), some 100)
    ∧ ((-2147483647 : Int) ≠ -2147483648) := by
  constructor
  · decide
  · decide

/-- C4 amended: `_parse_score_range` replaces a falsy first element with
`MIN_SCORE = -2147483647` (one greater than the minimum representable
32-bit signed integer) and a falsy second element with
`MAX_SCORE = 2147483647`; in particular `(None, 100)` becomes
`(-2147483647, 100)`. -/
theorem _parse_score_range_defaults (a b : Option Int) :
    _parse_score_range (a, b)
      = ((if truthyInt a then a else some MIN_SCORE),
         (if truthyInt b then b else some MAX_SCORE))
    ∧ MIN_SCORE = -2147483647 ∧ MAX_SCORE = 2147483647
    ∧ _parse_score_range (none, some 100) = (some (-2147483647), some 100) := by
  refine ⟨parse_score_range_eq a b, rfl, rfl, by decide⟩

/-- C10: a score bound equal to 0 is treated as unset (truthiness, not a
`None` check, decides defaulting), so an explicit bound of 0 cannot be
expressed; the same truthiness rule applies to empty-string date bounds. -/
theorem truthiness_zero_and_empty_bounds :
    _parse_score_range (some 0, some 100) = (some MIN_SCORE, some 100)
    ∧ _parse_score_range (some (-5), some 0) = (some (-5), some MAX_SCORE)
    ∧ _parse_date_range (some "", some "2010-01") = (some MIN_DATE, some "2010-01")
    ∧ _parse_date_range (some "2010-01", some "") = (some "2010-01", some MAX_DATE)
    ∧ ∀ a b : Option Int,
        (_parse_score_range (a, b)).1 ≠ some 0 ∧ (_parse_score_range (a, b)).2 ≠ some 0 := by
  refine ⟨by decide, by decide, by decide, by decide, ?_⟩
  intro a b
  rw [parse_score_range_eq]
  constructor
  · by_cases h : truthyInt a = true
    · cases a with
      | none => simp [truthyInt] at h
      | some n =>
        have hn : n ≠ 0 := by simpa [truthyInt] using h
        simp [h, hn]
    · simp only [Bool.not_eq_true] at h
      simp [h, MIN_SCORE]
  · by_cases h : truthyInt b = true
    · cases b with
      | none => simp [truthyInt] at h
      | some n =>
        have hn : n ≠ 0 := by simpa [truthyInt] using h
        simp [h, hn]
    · simp only [Bool.not_eq_true] at h
      simp [h, MAX_SCORE]

/-- After `_convert_timestamp` fails to parse, any active (parsed) date
range rejects the empty-string timestamp, because its start is never empty
and `'' < start` lexicographically. -/
theorem pyStrLe_ne_empty (s : String) (h : s ≠ "") : RC.pyStrLe s "" = false := by
  cases hs : s.data with
  | nil =>
    exact absurd (by cases s with | mk d => cases hs; rfl) h
  | cons c cs =>
    unfold RC.pyStrLe
    rw [hs]
    rfl

theorem datePass_parsed_empty (dr : Option String × Option String) :
    datePass (some (parsedDateRange dr)) "" = false := by
  have h := pyStrLe_ne_empty _ (parsedDateRange_fst_ne_empty dr)
  simp [datePass, h]

/-- C5: the five filters of `_iterate` apply in source order with
short-circuiting, and the in-place mutations happen between them exactly as
given: a record rejected by the subreddit or score filter is returned
untouched (no timestamp conversion, no body cleaning); one rejected by the
date filter has only `created_utc` converted, its body still uncleaned; one
rejected by the min-length filter has `created_utc` converted and its body
cleaned, but `retrieved_on` still untouched. -/
theorem processLine_order_frame (po : Params) (line : RC.Line) :
    (subPass po.subreddit line = false → processLine po line = (line, none))
    ∧ (subPass po.subreddit line = true → scorePass po.score_range line = false →
        processLine po line = (line, none))
    ∧ (subPass po.subreddit line = true → scorePass po.score_range line = true →
        datePass po.date_range
          (_convert_timestamp (line.created_utc.getD (RC.JVal.jstr ""))) = false →
        processLine po line
          = ({ line with created_utc := some (RC.JVal.jstr
                (_convert_timestamp (line.created_utc.getD (RC.JVal.jstr "")))) }, none))
    ∧ (subPass po.subreddit line = true → scorePass po.score_range line = true →
        datePass po.date_range
          (_convert_timestamp (line.created_utc.getD (RC.JVal.jstr ""))) = true →
        po.min_len ≠ 0 → (_clean_content line.body).length < po.min_len →
        processLine po line
          = ({ line with
                created_utc := some (RC.JVal.jstr
                  (_convert_timestamp (line.created_utc.getD (RC.JVal.jstr "")))),
                body := _clean_content line.body }, none)) := by
  refine ⟨?_, ?_, ?_, ?_⟩
  · intro h1
    simp [processLine, h1]
  · intro h1 h2
    simp [processLine, h1, h2]
  · intro h1 h2 h3
    simp [processLine, h1, h2, h3]
  · intro h1 h2 h3 h4 h5
    simp [processLine, h1, h2, h3, h4, h5]

/-- C5 witness: a record from the wrong subreddit is skipped untouched. -/
theorem processLine_order_frame_witness :
    processLine ⟨true, some ["news"], none, none, 0⟩ sampleLine = (sampleLine, none) :=
  (processLine_order_frame ⟨true, some ["news"], none, none, 0⟩ sampleLine).1 (by decide)

/-- C6: a record whose `created_utc` cannot be parsed as an integer gets the
empty string from `_convert_timestamp` (no exception); it is skipped
whenever a (parsed) date-range filter is active, and with no date filter it
is yielded — the full record carrying `created_utc = ''` — provided the
other filters pass. -/
theorem convert_timestamp_invalid (po : Params) (line : RC.Line)
    (hbad : RC.pyInt (line.created_utc.getD (RC.JVal.jstr "")) = none) :
    _convert_timestamp (line.created_utc.getD (RC.JVal.jstr "")) = ""
    ∧ (∀ dr : Option String × Option String,
        po.date_range = some (parsedDateRange dr) → (processLine po line).2 = none)
    ∧ (po.date_range = none → subPass po.subreddit line = true →
        scorePass po.score_range line = true →
        ¬ (po.min_len ≠ 0 ∧ (_clean_content line.body).length < po.min_len) →
        po.text_only = false →
        (processLine po line).1.created_utc = some (RC.JVal.jstr "")
        ∧ (processLine po line).2
            = some (RC.Output.record ((processLine po line).1))) := by
  have hcv : _convert_timestamp (line.created_utc.getD (RC.JVal.jstr "")) = "" := by
    unfold _convert_timestamp
    rw [hbad]
  refine ⟨hcv, ?_, ?_⟩
  · intro dr hdr
    by_cases h1 : subPass po.subreddit line = true
    · by_cases h2 : scorePass po.score_range line = true
      · have h3 : datePass po.date_range
            (_convert_timestamp (line.created_utc.getD (RC.JVal.jstr ""))) = false := by
          rw [hcv, hdr]
          exact datePass_parsed_empty dr
        simp [processLine, h1, h2, h3]
      · simp only [Bool.not_eq_true] at h2
        simp [processLine, h1, h2]
    · simp only [Bool.not_eq_true] at h1
      simp [processLine, h1]
  · intro hdr h1 h2 h4 h5
    have h3 : ∀ cu, datePass po.date_range cu = true := by
      rw [hdr]
      intro cu
      rfl
    simp [processLine, h1, h2, h3, h4, h5, hcv]

/-- C6 witness: a record with `created_utc = "notanumber"` and no date
filter: the conversion yields the empty string. -/
theorem convert_timestamp_invalid_witness :
    _convert_timestamp ((some (RC.JVal.jstr "notanumber")).getD (RC.JVal.jstr "")) = "" :=
  (convert_timestamp_invalid ⟨false, none, none, none, 0⟩
    ⟨"a", 1, some (RC.JVal.jstr "notanumber"), "b", none⟩ (by decide)).1

/-- C9: a single-string `subreddit="politics"` and a collection containing
it filter a record whose subreddit is `"politics"` identically: the whole
per-line outcome is the same. -/
theorem subreddit_single_vs_collection (textOnly : Bool)
    (dr : Option (Option String × Option String))
    (sr : Option (Option Int × Option Int)) (ml : Nat) (line : RC.Line)
    (h : line.subreddit = "politics") :
    processLine (mkParams textOnly (SubredditArg.one "politics") dr sr ml) line
      = processLine (mkParams textOnly (SubredditArg.many ["politics", "news"]) dr sr ml) line := by
  have h1 : subPass (normalizeSubreddit (SubredditArg.one "politics")) line = true := by
    simp [normalizeSubreddit, subPass, h]
  have h2 : subPass (normalizeSubreddit (SubredditArg.many ["politics", "news"])) line
      = true := by
    simp [normalizeSubreddit, subPass, h]
  simp [processLine, mkParams, h1, h2]

/-- C9 witness: the sample "politics" record under both spellings. -/
theorem subreddit_single_vs_collection_witness :
    processLine (mkParams true (SubredditArg.one "politics") none none 0) sampleLine
      = processLine (mkParams true (SubredditArg.many ["politics", "news"]) none none 0)
          sampleLine :=
  subreddit_single_vs_collection true none none 0 sampleLine (by decide)

/-- C7: when the selected file set is empty (a date range resolving to no
on-disk file, or no files at all), `_iterate` raises the not-found `IOError`
whose message names the data directory and the requested (parsed) date
range, and yields nothing. -/
theorem _iterate_no_files (fuel : Nat) (textOnly : Bool) (subreddit : SubredditArg)
    (dateRange : Option (Option String × Option String))
    (scoreRange : Option (Option Int × Option Int))
    (minLen : Nat) (limit : Int) (dataDir : String)
    (files : List (String × List RC.Line))
    (hsel : selectFiles fuel dateRange dataDir files = some []) :
    _iterate fuel textOnly subreddit dateRange scoreRange minLen limit dataDir files
      = some (Except.error (noFilesMsg dataDir (dateRange.map parsedDateRange)))
    ∧ ∀ outs, _iterate fuel textOnly subreddit dateRange scoreRange minLen limit
        dataDir files ≠ some (Except.ok outs) := by
  have h : _iterate fuel textOnly subreddit dateRange scoreRange minLen limit
      dataDir files
      = some (Except.error (noFilesMsg dataDir (dateRange.map parsedDateRange))) := by
    rw [_iterate, hsel]
    rfl
  refine ⟨h, ?_⟩
  intro outs hc
  rw [h] at hc
  simp at hc

/-- C7 witness: a date range whose resolved filenames miss every file on
disk raises the not-found error. -/
theorem _iterate_no_files_witness :
    _iterate 2 true SubredditArg.noneArg (some (some "2010-01", some "2010-02"))
      none 0 (-1) "d" offRangeFiles
      = some (Except.error (noFilesMsg "d"
          ((some (some "2010-01", some "2010-02")).map parsedDateRange))) :=
  (_iterate_no_files 2 true SubredditArg.noneArg (some (some "2010-01", some "2010-02"))
    none 0 (-1) "d" offRangeFiles (by decide)).1

/-- C8: `_clean_content` on the spec's example: link markup stripped to its
label, `&gt;` decoded, emphasis and code markers deleted, whitespace
collapsed and trimmed; and for every input the pipeline is exactly
link-stripping, then entity decoding, then marker deletion, then whitespace
normalization last. -/
theorem _clean_content_example :
    _clean_content "[see here](http://x.com/y) &gt; *bold* `code`" = "see here > bold code"
    ∧ ∀ s, _clean_content s
        = RC.normalize_whitespace
            (RC.pyReplace (RC.pyReplace (RC.pyReplace
              (RC.pyReplace (RC.pyReplace (⟨RC.subLinks s.data⟩ : String) "&gt;" ">")
                "&lt;" "<") "`" "") "*" "") "~" "") := by
  constructor
  · decide
  · intro s
    rfl

end RedditComments
